import Mathlib

/-!
Shallow embedding of the `mtd` utility library (src/src/util/any.hpp,
function.hpp, memory.hpp): the type-erased value container `Any`, the
type-erased callable wrapper `Function`, and the smart-pointer family
`UniquePtr` / `SharedPtr` / `WeakPtr`, together with theorems settling the
specification's claims about them.

Modelling conventions.  Heap addresses are `Nat`; a raw pointer member is
`Option Nat` (`none` = null) or, where the member can be left uninitialized
by a constructor, `PtrV` with an extra `undef` state.  `throw "..."` of a
string literal is `CppError.raw`.  An operation whose C++ execution is
undefined behaviour is given the `Outcome.ub` result.  Machine `int`
(the atomic reference count) is `Int`.
-/

namespace mtd

/-- The C++ code signals failures by `throw` of a raw string literal
(`throw "wtf"` in function.hpp line 73, `throw "wtfff"` in any.hpp line 48).
One constructor models that untyped signal, carrying the thrown text. -/
inductive CppError where
  | raw (s : String)
deriving DecidableEq

/-- Text thrown by `Function::operator()` when `callable_` is null
(function.hpp line 73). -/
def emptyCallMsg : String := "wtf"

/-- Text thrown by `Any::cast` when the content is absent or the
dynamic_cast to `Holder<T>` fails (any.hpp line 48). -/
def typeMismatchMsg : String := "wtfff"

/-- Result of executing a C++ operation: a value, a thrown error, or
undefined behaviour. -/
inductive Outcome (β : Type) where
  | ok (b : β)
  | err (e : CppError)
  | ub
deriving DecidableEq

/-- A raw-pointer member of a class: `undef` when a constructor left it
uninitialized (its value is indeterminate and reading it is UB), `null`,
or `valid a` pointing at the heap object with address `a`. -/
inductive PtrV (α : Type) where
  | undef
  | null
  | valid (a : α)
deriving DecidableEq

/-- Model of `mtd::Function<Rt(Args...)>` (function.hpp).  The single data
member is `CallableBase *callable_;` it either points at a heap-allocated
`CallableHolder` (modelled as its address paired with the held callable
value), is null, or is uninitialized.  `γ` is the type of the held callable
value. -/
structure Function (γ : Type) where
  callable : PtrV (Nat × γ)

/-- Default-initialization `Function f;`.  `Function() = default` together
with the bare member `CallableBase *callable_;` (no initializer) leaves the
pointer indeterminate (function.hpp lines 35 and 79). -/
def Function.defaultInit (γ : Type) : Function γ :=
  { callable := PtrV.undef }

/-- Value-initialization `Function f{};`: because the default constructor is
defaulted, the object is zero-initialized first, so `callable_` is null. -/
def Function.valueInit (γ : Type) : Function γ :=
  { callable := PtrV.null }

/-- Constructor from a callable (function.hpp lines 44-47): allocates a new
`CallableHolder` (at fresh address `a`) holding the callable `c`. -/
def Function.ofCallable {γ : Type} (a : Nat) (c : γ) : Function γ :=
  { callable := PtrV.valid (a, c) }

/-- Move constructor (function.hpp line 57): `= default`, i.e. the raw
pointer member is copied memberwise and the source is left UNCHANGED (a
moved-from scalar keeps its value).  Returns (target, source-after-move). -/
def Function.moveCtor {γ : Type} (f : Function γ) : Function γ × Function γ :=
  ({ callable := f.callable }, f)

/-- Move assignment (function.hpp line 68): `= default`, memberwise
assignment of the raw pointer; the destination's old pointer is overwritten
(never freed) and the source is left unchanged.
Returns (destination-after, source-after). -/
def Function.moveAssign {γ : Type} (_d s : Function γ) : Function γ × Function γ :=
  ({ callable := s.callable }, s)

/-- Copy constructor (function.hpp lines 50-54): clones the holder to a
fresh address when the source holds one; when the source pointer is null the
body does nothing, leaving the member uninitialized; reading an
indeterminate source pointer is UB. -/
def Function.copyCtor {γ : Type} (fresh : Nat) (f : Function γ) : Outcome (Function γ) :=
  match f.callable with
  | PtrV.undef => Outcome.ub
  | PtrV.null => Outcome.ok { callable := PtrV.undef }
  | PtrV.valid (_, c) => Outcome.ok { callable := PtrV.valid (fresh, c) }

/-- Call operator (function.hpp lines 71-76) for a unary callable: reading
an indeterminate `callable_` is UB; a null `callable_` throws the raw string
"wtf"; otherwise the held callable is invoked on the argument. -/
def Function.call {α β : Type} (f : Function (α → β)) (x : α) : Outcome β :=
  match f.callable with
  | PtrV.undef => Outcome.ub
  | PtrV.null => Outcome.err (CppError.raw emptyCallMsg)
  | PtrV.valid (_, c) => Outcome.ok (c x)

/-- Destructor (function.hpp lines 37-41): the addresses it frees.  Reading
an indeterminate `callable_` is UB; null frees nothing; otherwise the one
held `CallableHolder` is deleted. -/
def Function.dtorFrees {γ : Type} (f : Function γ) : Outcome (List Nat) :=
  match f.callable with
  | PtrV.undef => Outcome.ub
  | PtrV.null => Outcome.ok []
  | PtrV.valid (a, _) => Outcome.ok [a]

/-- Model of `mtd::Any` (any.hpp).  The erased content is the owning
`UniquePtr<Placeholder> content_`; a non-null content is a `Holder<T>`
carrying the tag of the stored type and the held value.  The type universe
is a parameter: `τ` is the set of type tags, `δ` the value type each tag
denotes; `dynamic_cast<Holder<T>*>` succeeds exactly when the stored tag
equals the requested one (a `Holder<U>` for `U ≠ T` is an unrelated
class). -/
structure Any (τ : Type) (δ : τ → Type) where
  content : Option (Sigma δ)

/-- Default constructor `Any() = default` (any.hpp line 8): `content_` is a
default-constructed `UniquePtr`, whose pointer is null. -/
def Any.defaultCtor (τ : Type) (δ : τ → Type) : Any τ δ :=
  { content := none }

/-- Constructor from a concrete value (any.hpp lines 10-12):
`content_.reset(new Holder<T>(forward(t)))`, so the content is a holder
tagged with the value's type. -/
def Any.ofVal {τ : Type} {δ : τ → Type} (t : τ) (v : δ t) : Any τ δ :=
  { content := some ⟨t, v⟩ }

/-- Accessor `has_value` (any.hpp line 40): `content_ != nullptr`. -/
def Any.has_value {τ : Type} {δ : τ → Type} (a : Any τ δ) : Bool :=
  a.content.isSome

/-- Member `cast<T>()` (any.hpp lines 42-49): when the content pointer is
non-null and `dynamic_cast<Holder<T>*>` succeeds (the stored tag is exactly
`t`) the held value is returned; otherwise the raw string "wtfff" is
thrown. -/
def Any.cast {τ : Type} {δ : τ → Type} [DecidableEq τ] (t : τ) (a : Any τ δ) :
    Except CppError (δ t) :=
  match a.content with
  | none => Except.error (CppError.raw typeMismatchMsg)
  | some p =>
      if h : p.fst = t then Except.ok (h ▸ p.snd)
      else Except.error (CppError.raw typeMismatchMsg)

/-- Member `Holder<T>::clone` (any.hpp line 67): `return new Holder(T{});`
— the clone keeps the tag `T` but holds a value-initialized `T{}` (given by
`dflt`), not a copy of `held`. -/
def Any.cloneHolder {τ : Type} {δ : τ → Type} (dflt : (t : τ) → δ t)
    (p : Sigma δ) : Sigma δ :=
  ⟨p.fst, dflt p.fst⟩

/-- Copy constructor (any.hpp lines 14-18): when the source has content,
`content_.reset(other.content_->clone())`. -/
def Any.copyCtor {τ : Type} {δ : τ → Type} (dflt : (t : τ) → δ t)
    (a : Any τ δ) : Any τ δ :=
  { content := a.content.map (Any.cloneHolder dflt) }

/-- Move constructor (any.hpp line 20): `content_(std::move(other.content_))`;
the `UniquePtr` move constructor nulls the source's pointer (memory.hpp
lines 158-161).  Returns (target, source-after-move). -/
def Any.moveCtor {τ : Type} {δ : τ → Type} (a : Any τ δ) : Any τ δ × Any τ δ :=
  ({ content := a.content }, { content := none })

/-- A small concrete type universe used to evaluate the model on the spec's
own scenario (`int` 42 against `double`): the tags. -/
inductive CTy where
  | cInt
  | cDouble
  | cStr
deriving DecidableEq

/-- Denotation of each concrete tag.  The `double` payload is irrelevant to
every claim (only its tag is ever compared), so it is modelled by `Unit`. -/
def CTy.den : CTy → Type
  | CTy.cInt => Int
  | CTy.cDouble => Unit
  | CTy.cStr => String

/-- Value-initialization `T{}` for each concrete tag: `int{}` is 0,
`std::string{}` is empty. -/
def CTy.dflt : (t : CTy) → t.den
  | CTy.cInt => (0 : Int)
  | CTy.cDouble => ()
  | CTy.cStr => ""

/-- Claim C2: constructing an `Any` from a concrete value `v` of type `T`
and extracting with `cast<T>()` succeeds and returns `v`. -/
theorem any_roundtrip_cast {τ : Type} {δ : τ → Type} [DecidableEq τ]
    (t : τ) (v : δ t) :
    Any.cast t (Any.ofVal t v) = Except.ok v := by
  simp [Any.cast, Any.ofVal]

/-- Claim C3 (counter-evidence): the copy constructor goes through
`Holder<T>::clone`, which builds `new Holder(T{})`; copying an `Any` holding
the int 42 yields an `Any` whose `cast<int>()` succeeds but returns 0, not
42, while the original still casts to 42. -/
theorem any_copy_loses_value :
    Any.cast CTy.cInt (Any.copyCtor CTy.dflt (Any.ofVal CTy.cInt (42 : Int))) =
      Except.ok (0 : Int) ∧
    Any.cast CTy.cInt (Any.copyCtor CTy.dflt (Any.ofVal CTy.cInt (42 : Int))) ≠
      Except.ok (42 : Int) ∧
    Any.cast CTy.cInt (Any.ofVal (δ := CTy.den) CTy.cInt (42 : Int)) =
      Except.ok (42 : Int) := by
  have h1 : Any.cast CTy.cInt (Any.copyCtor CTy.dflt (Any.ofVal CTy.cInt (42 : Int))) =
      Except.ok (0 : Int) := rfl
  refine ⟨h1, ?_, rfl⟩
  rw [h1]
  intro h
  injection h with h2
  have h3 : (0 : Int) = 42 := h2
  omega

/-- Claim C4: `cast<U>()` on an `Any` built from a value of a different type
`T` fails with the thrown string "wtfff" (the type-mismatch signal), and the
stored value and its tag are untouched. -/
theorem any_cast_wrong_type {τ : Type} {δ : τ → Type} [DecidableEq τ]
    (t u : τ) (v : δ t) (h : u ≠ t) :
    Any.cast u (Any.ofVal t v) = Except.error (CppError.raw typeMismatchMsg) ∧
    (Any.ofVal t v).content = some ⟨t, v⟩ := by
  constructor
  · simp [Any.cast, Any.ofVal]
    intro hh
    exact absurd hh.symm h
  · rfl

/-- Claim C4 witness: the spec's scenario, `cast<double>()` on an `Any`
holding the int 42. -/
theorem any_cast_wrong_type_wit :
    Any.cast CTy.cDouble (Any.ofVal (δ := CTy.den) CTy.cInt (42 : Int)) =
      Except.error (CppError.raw typeMismatchMsg) :=
  (any_cast_wrong_type CTy.cInt CTy.cDouble (42 : Int) (by decide)).1

/-- Claim C9: an empty `Any` — default-constructed or the source of a move —
reports `has_value() = false`, and `cast<T>()` for every `T` fails with the
same thrown string "wtfff" as a type mismatch. -/
theorem any_empty_cast_fails {τ : Type} {δ : τ → Type} [DecidableEq τ]
    (t : τ) (a : Any τ δ) :
    (Any.defaultCtor τ δ).has_value = false ∧
    Any.cast t (Any.defaultCtor τ δ) = Except.error (CppError.raw typeMismatchMsg) ∧
    (Any.moveCtor a).2 = Any.defaultCtor τ δ ∧
    (Any.moveCtor a).2.has_value = false ∧
    Any.cast t (Any.moveCtor a).2 = Except.error (CppError.raw typeMismatchMsg) :=
  ⟨rfl, rfl, rfl, rfl, rfl⟩

/-- Claim C6 (counter-evidence): both `Function` move operations are
`= default` over the raw owning pointer, so the source is NOT left empty:
after a move the source still points at the original holder, invoking the
moved-from instance succeeds (it calls the captured callable, rather than
failing as an empty instance), and the destructors of source and target
each delete the same holder address — a double free. -/
theorem function_move_source_not_emptied :
    (Function.moveCtor (Function.ofCallable 7 (fun n : Int => n * 2))).2 =
      Function.ofCallable 7 (fun n : Int => n * 2) ∧
    Function.call (Function.moveCtor (Function.ofCallable 7 (fun n : Int => n * 2))).2 5 =
      Outcome.ok 10 ∧
    (Function.moveAssign (Function.valueInit (Int → Int))
        (Function.ofCallable 8 (fun n : Int => n * 2))).2 =
      Function.ofCallable 8 (fun n : Int => n * 2) ∧
    Function.dtorFrees (Function.moveCtor (Function.ofCallable 7 (fun n : Int => n * 2))).1 =
      Outcome.ok [7] ∧
    Function.dtorFrees (Function.moveCtor (Function.ofCallable 7 (fun n : Int => n * 2))).2 =
      Outcome.ok [7] :=
  ⟨rfl, rfl, rfl, rfl, rfl⟩

/-- Claim C7 (evaluation): invoking a default-initialized `Function` reads
the indeterminate `callable_` member and is undefined behaviour, not a clean
EmptyCallable failure; only a zero-initialized (null) instance reaches
`throw "wtf"`, an untyped string; a held callable is forwarded to and its
result returned. -/
theorem function_empty_invoke_behavior :
    Function.call (Function.defaultInit (Int → Int)) 5 = Outcome.ub ∧
    Function.call (Function.valueInit (Int → Int)) 5 =
      Outcome.err (CppError.raw emptyCallMsg) ∧
    Function.call (Function.ofCallable 3 (fun n : Int => n + 1)) 5 =
      Outcome.ok 6 :=
  ⟨rfl, rfl, rfl⟩

/-- Model of `mtd::UniquePtr<T>` (memory.hpp lines 146-218): the owned
pointee address and the deleter, a `Function<void(T*)>`.  The deleter's
held callable is abstract (`γ`); only its holder address and identity
matter to the claims. -/
structure UniquePtr (γ : Type) where
  ptr : Option Nat
  deleter : Function γ

/-- UniquePtr move constructor (memory.hpp lines 158-161): the pointee
pointer transfers and the source's is nulled; `deleter_(std::move(...))`
move-constructs the `Function`, whose defaulted move copies the raw holder
pointer and leaves the source's deleter untouched.
Returns (target, source-after-move). -/
def UniquePtr.moveCtor {γ : Type} (u : UniquePtr γ) : UniquePtr γ × UniquePtr γ :=
  ({ ptr := u.ptr, deleter := (Function.moveCtor u.deleter).1 },
   { ptr := none, deleter := (Function.moveCtor u.deleter).2 })

/-- UniquePtr destructor (memory.hpp line 174): `deleter_(ptr_);` invokes
the deleter `Function` on the stored pointer unconditionally (null
included), then the implicit `~Function` frees the deleter's holder.  The
result records (argument the deleter received, holder addresses freed). -/
def UniquePtr.dtorEffects {γ : Type} (u : UniquePtr γ) :
    Outcome (Option Nat × List Nat) :=
  match u.deleter.callable with
  | PtrV.undef => Outcome.ub
  | PtrV.null => Outcome.err (CppError.raw emptyCallMsg)
  | PtrV.valid (a, _) => Outcome.ok (u.ptr, [a])

/-- Model of `mtd::SharedPtr<T>` (memory.hpp lines 7-137): the pointee
address, the address of the shared `std::atomic<int>` counter block (none =
null), and the deleter `Function`. -/
structure SharedPtr (γ : Type) where
  ptr : Option Nat
  ref_count : Option Nat
  deleter : Function γ

/-- SharedPtr move constructor (memory.hpp lines 32-38): pointer and
counter transfer and are nulled in the source; the deleter `Function` is
move-constructed, whose defaulted move copies the holder pointer and leaves
the source's deleter untouched.  Returns (target, source-after-move). -/
def SharedPtr.moveCtor {γ : Type} (s : SharedPtr γ) : SharedPtr γ × SharedPtr γ :=
  ({ ptr := s.ptr, ref_count := s.ref_count, deleter := (Function.moveCtor s.deleter).1 },
   { ptr := none, ref_count := none, deleter := (Function.moveCtor s.deleter).2 })

/-- What one call to `SharedPtr::release` (memory.hpp lines 129-136) did:
whether it invoked the deleter on the pointee and whether it freed the
counter block. -/
structure ReleaseOut where
  delInvoked : Bool
  ctrFreed : Bool
deriving DecidableEq

/-- Member `release` (memory.hpp lines 129-136): with a null counter
pointer it does nothing; otherwise `fetch_sub(1, acq_rel)` returns the
previous counter value `prev`, and exactly when `prev = 1` (the 1-to-0
transition) the deleter runs on the pointee and the counter block is
deleted. -/
def SharedPtr.release {γ : Type} (prev : Int) (s : SharedPtr γ) : ReleaseOut :=
  match s.ref_count with
  | none => { delInvoked := false, ctrFreed := false }
  | some _ =>
      if prev = 1 then { delInvoked := true, ctrFreed := true }
      else { delInvoked := false, ctrFreed := false }

/-- Result of `SharedPtr::reset`: the owner's state afterwards, what the
leading `release()` did, and the value a freshly allocated counter starts
at (none when no counter was allocated). -/
structure ResetOut (γ : Type) where
  state : SharedPtr γ
  rel : ReleaseOut
  newCount : Option Int

/-- Member `reset` (memory.hpp lines 108-118): first `release()` (with
`prev` the value its fetch_sub observed); then a non-null new pointer is
adopted with a fresh counter at 1 and the supplied deleter installed, while
a null new pointer only nulls `ptr_` and `ref_count_` — the `deleter_`
member is NOT assigned in that branch, so the supplied deleter argument is
discarded. -/
def SharedPtr.reset {γ : Type} (p : Option Nat) (d : Function γ) (prev : Int)
    (fresh : Nat) (s : SharedPtr γ) : ResetOut γ :=
  let r := SharedPtr.release prev s
  match p with
  | some q =>
      { state := { ptr := some q, ref_count := some fresh, deleter := d },
        rel := r, newCount := some 1 }
  | none =>
      { state := { ptr := none, ref_count := none, deleter := s.deleter },
        rel := r, newCount := none }

/-- SharedPtr destructor (memory.hpp line 121): `release()` followed by the
implicit destruction of the `deleter_` member (`~Function` frees the
deleter's holder). -/
def SharedPtr.dtorEffects {γ : Type} (prev : Int) (s : SharedPtr γ) :
    ReleaseOut × Outcome (List Nat) :=
  (SharedPtr.release prev s, Function.dtorFrees s.deleter)

/-- A concrete custom deleter value used to evaluate the move claims. -/
def deleterC : Option Nat → Unit := fun _ => ()

/-- A concrete UniquePtr owning pointee 1 with a custom deleter whose
holder lives at address 7. -/
def u0 : UniquePtr (Option Nat → Unit) :=
  { ptr := some 1, deleter := Function.ofCallable 7 deleterC }

/-- A concrete SharedPtr owning pointee 1, counter block at address 2, and
a custom deleter whose holder lives at address 7. -/
def s0 : SharedPtr (Option Nat → Unit) :=
  { ptr := some 1, ref_count := some 2, deleter := Function.ofCallable 7 deleterC }

/-- Claim C8 (counter-evidence): after a move the source's pointee pointer
is null as claimed, but the source's deleter `Function` still points at the
SAME holder as the target's (the defaulted `Function` move copies the raw
pointer), so destroying the source is not a no-op that frees nothing: the
source's destructor invokes the original deleter on null and frees holder
7, which the target's destructor frees again — a double free, and the
target's deleter dangles rather than being transferred intact. -/
theorem owner_move_deleter_aliasing :
    (UniquePtr.moveCtor u0).2.ptr = none ∧
    (UniquePtr.moveCtor u0).2.deleter = Function.ofCallable 7 deleterC ∧
    (UniquePtr.moveCtor u0).1.deleter = Function.ofCallable 7 deleterC ∧
    UniquePtr.dtorEffects (UniquePtr.moveCtor u0).2 = Outcome.ok (none, [7]) ∧
    UniquePtr.dtorEffects (UniquePtr.moveCtor u0).1 = Outcome.ok (some 1, [7]) ∧
    (SharedPtr.moveCtor s0).2.ptr = none ∧
    (SharedPtr.moveCtor s0).2.ref_count = none ∧
    SharedPtr.dtorEffects 0 (SharedPtr.moveCtor s0).2 =
      ({ delInvoked := false, ctrFreed := false }, Outcome.ok [7]) ∧
    Function.dtorFrees (SharedPtr.moveCtor s0).1.deleter = Outcome.ok [7] :=
  ⟨rfl, rfl, rfl, rfl, rfl, rfl, rfl, rfl, rfl⟩

/-- Claim C10: `reset` with a null pointer releases the current referent
and nulls the stored pointer and counter but leaves the stored deleter
unchanged, discarding the deleter argument; only a reset with a non-null
pointer installs the supplied deleter (with a fresh counter at 1). -/
theorem sharedPtr_reset_null_keeps_deleter {γ : Type} (s : SharedPtr γ)
    (d : Function γ) (prev : Int) (fresh q : Nat) :
    (SharedPtr.reset none d prev fresh s).state =
      { ptr := none, ref_count := none, deleter := s.deleter } ∧
    (SharedPtr.reset none d prev fresh s).rel = SharedPtr.release prev s ∧
    (SharedPtr.reset (some q) d prev fresh s).state =
      { ptr := some q, ref_count := some fresh, deleter := d } ∧
    (SharedPtr.reset (some q) d prev fresh s).newCount = some 1 :=
  ⟨rfl, rfl, rfl, rfl⟩

/-- An atomic operation performed on one shared counter block during its
lifetime: `copy` is the `fetch_add(1, relaxed)` of a copy construction or
copy assignment adopting the block (memory.hpp lines 27 and 49), `rel` is
one `release()` — run by the destructor, by assignment over an owner, or by
`reset` (memory.hpp lines 43, 58, 109, 121).  An interleaving of atomic
operations from any number of threads is one such sequence. -/
inductive RcEvent where
  | copy
  | rel
deriving DecidableEq

/-- The observable state of one counter block: the current counter value,
whether the 1-to-0 release has freed the block (and destroyed the pointee),
and how many times the deleter has been invoked on the pointee. -/
structure RcState where
  count : Int
  freed : Bool
  delCalls : Nat
deriving DecidableEq

/-- Construction from a raw pointer (memory.hpp line 18-19):
`new std::atomic<int>(1)`. -/
def rcInit : RcState := { count := 1, freed := false, delCalls := 0 }

/-- One atomic operation on the block.  `copy` is `fetch_add(1, relaxed)`;
`rel` is `release()` (memory.hpp lines 129-136): `fetch_sub(1, acq_rel)`
returns the previous value, and exactly when that value is 1 the deleter
runs on the pointee and the block is deleted. -/
def rcStep (s : RcState) : RcEvent → RcState
  | RcEvent.copy => { s with count := s.count + 1 }
  | RcEvent.rel =>
      if s.count = 1 then
        { count := s.count - 1, freed := true, delCalls := s.delCalls + 1 }
      else
        { s with count := s.count - 1 }

/-- Run a sequence of atomic operations against a block state. -/
def rcRun (s : RcState) : List RcEvent → RcState
  | [] => s
  | e :: t => rcRun (rcStep s e) t

/-- A sequence of operations is a complete lifecycle of a block created
with `o` owners when every operation is issued by or on a then-existing
owner (the number of live owners is positive before each event) and at the
end every owner is gone: copying requires a live owner to copy from, and
only a live owner releases. -/
def rcValidFrom : Int → List RcEvent → Bool
  | o, [] => o == 0
  | o, RcEvent.copy :: t => decide (0 < o) && rcValidFrom (o + 1) t
  | o, RcEvent.rel :: t => decide (0 < o) && rcValidFrom (o - 1) t

/-- Net change in the number of live owners over a sequence: +1 per copy,
-1 per release. -/
def ownersDelta : List RcEvent → Int
  | [] => 0
  | RcEvent.copy :: t => 1 + ownersDelta t
  | RcEvent.rel :: t => ownersDelta t - 1

/-- A sequence that is a complete lifecycle for zero owners is empty. -/
theorem rcValidFrom_zero (t : List RcEvent) (h : rcValidFrom 0 t = true) :
    t = [] := by
  cases t with
  | nil => rfl
  | cons e t =>
      cases e <;> simp [rcValidFrom] at h

/-- Running a complete lifecycle from a fresh-block-like state invokes the
deleter exactly once, frees the block, and brings the counter to 0. -/
theorem rcRun_complete (evs : List RcEvent) :
    ∀ o : Int, ∀ s : RcState, rcValidFrom o evs = true → 0 < o →
      s.count = o → s.freed = false → s.delCalls = 0 →
      (rcRun s evs).delCalls = 1 ∧ (rcRun s evs).freed = true ∧
        (rcRun s evs).count = 0 := by
  induction evs with
  | nil =>
      intro o s hv ho _ _ _
      simp [rcValidFrom] at hv
      omega
  | cons e t ih =>
      intro o s hv ho hc hf hd
      cases e with
      | copy =>
          simp only [rcValidFrom, Bool.and_eq_true, decide_eq_true_eq] at hv
          have step : rcStep s RcEvent.copy = { s with count := s.count + 1 } := rfl
          simp only [rcRun, step]
          exact ih (o + 1) { s with count := s.count + 1 } hv.2 (by omega)
            (by simp [hc]) hf hd
      | rel =>
          simp only [rcValidFrom, Bool.and_eq_true, decide_eq_true_eq] at hv
          by_cases h1 : o = 1
          · have hz : rcValidFrom 0 t = true := by
              rw [h1] at hv
              simpa using hv.2
            have ht : t = [] := rcValidFrom_zero t hz
            subst ht
            have hs1 : s.count = 1 := by omega
            simp [rcRun, rcStep, hs1, hd]
          · have step : rcStep s RcEvent.rel = { s with count := s.count - 1 } := by
              simp [rcStep, hc]
              intro hcc
              exact absurd (hc ▸ hcc) (by omega)
            simp only [rcRun, step]
            exact ih (o - 1) { s with count := s.count - 1 } hv.2 (by omega)
              (by simp [hc]) hf hd

/-- Along a complete lifecycle, before the final event has run the counter
always equals the number of live owners, the block is not yet freed, the
deleter has never run, and the remaining events are a complete lifecycle
for the owners that remain. -/
theorem rcRun_prefix (pre : List RcEvent) :
    ∀ post : List RcEvent, ∀ o : Int, ∀ s : RcState,
      rcValidFrom o (pre ++ post) = true → post ≠ [] → 0 < o →
      s.count = o → s.freed = false → s.delCalls = 0 →
      (rcRun s pre).count = o + ownersDelta pre ∧
        0 < (rcRun s pre).count ∧
        (rcRun s pre).freed = false ∧
        (rcRun s pre).delCalls = 0 ∧
        rcValidFrom (o + ownersDelta pre) post = true := by
  induction pre with
  | nil =>
      intro post o s hv hne ho hc hf hd
      simp only [List.nil_append] at hv
      simp [rcRun, ownersDelta, hc, hf, hd, ho, hv]
  | cons e t ih =>
      intro post o s hv hne ho hc hf hd
      cases e with
      | copy =>
          simp only [List.cons_append, rcValidFrom, Bool.and_eq_true,
            decide_eq_true_eq] at hv
          have step : rcStep s RcEvent.copy = { s with count := s.count + 1 } := rfl
          simp only [rcRun, step]
          have res := ih post (o + 1) { s with count := s.count + 1 } hv.2 hne
            (by omega) (by simp [hc]) hf hd
          have harith : o + 1 + ownersDelta t = o + ownersDelta (RcEvent.copy :: t) := by
            simp [ownersDelta]
            omega
          rw [harith] at res
          exact res
      | rel =>
          simp only [List.cons_append, rcValidFrom, Bool.and_eq_true,
            decide_eq_true_eq] at hv
          by_cases h1 : o = 1
          · have hz : rcValidFrom 0 (t ++ post) = true := by
              rw [h1] at hv
              simpa using hv.2
            have := rcValidFrom_zero (t ++ post) hz
            rcases List.append_eq_nil.mp this with ⟨_, hpost⟩
            exact absurd hpost hne
          · have step : rcStep s RcEvent.rel = { s with count := s.count - 1 } := by
              simp [rcStep, hc]
              intro hcc
              exact absurd (hc ▸ hcc) (by omega)
            simp only [rcRun, step]
            have res := ih post (o - 1) { s with count := s.count - 1 } hv.2 hne
              (by omega) (by simp [hc]) hf hd
            have harith : o - 1 + ownersDelta t = o + ownersDelta (RcEvent.rel :: t) := by
              simp [ownersDelta]
              omega
            rw [harith] at res
            exact res

/-- Claim C1: over any complete lifecycle of one counter block — an
arbitrary interleaving of copy operations (copy construction or copy
assignment, +1 each) and releases (destruction or reassignment, -1 each)
starting from construction at count 1 — the counter always equals 1 plus
the net owner change while owners remain, the deleter has been invoked on
the pointee exactly once when all owners are gone and never before, the
counter block is deallocated at that same moment and not before, and the
one deleter invocation is performed precisely by the final release, the one
that observes the counter at 1 immediately before its decrement. -/
theorem sharedPtr_refcount_exactly_once (evs : List RcEvent)
    (h : rcValidFrom 1 evs = true) :
    (rcRun rcInit evs).delCalls = 1 ∧ (rcRun rcInit evs).freed = true ∧
      (∀ pre post : List RcEvent, evs = pre ++ post → post ≠ [] →
        (rcRun rcInit pre).count = 1 + ownersDelta pre ∧
          (rcRun rcInit pre).delCalls = 0 ∧
          (rcRun rcInit pre).freed = false) ∧
      (∃ pre : List RcEvent, evs = pre ++ [RcEvent.rel] ∧
        (rcRun rcInit pre).count = 1) := by
  have hfin := rcRun_complete evs 1 rcInit h (by omega) rfl rfl rfl
  refine ⟨hfin.1, hfin.2.1, ?_, ?_⟩
  · intro pre post hsplit hne
    have res := rcRun_prefix pre post 1 rcInit (hsplit ▸ h) hne (by omega) rfl rfl rfl
    exact ⟨res.1, res.2.2.2.1, res.2.2.1⟩
  · have hne : evs ≠ [] := by
      intro hnil
      rw [hnil] at h
      simp [rcValidFrom] at h
    rcases List.eq_nil_or_concat evs with hnil | ⟨pre, e, hsplit⟩
    · exact absurd hnil hne
    · rw [List.concat_eq_append] at hsplit
      subst hsplit
      have res := rcRun_prefix pre [e] 1 rcInit h (by simp) (by omega) rfl rfl rfl
      have hlast := res.2.2.2.2
      cases e with
      | copy =>
          simp [rcValidFrom] at hlast
          omega
      | rel =>
          simp [rcValidFrom] at hlast
          refine ⟨pre, rfl, ?_⟩
          rw [res.1]
          omega

/-- Claim C1 witness: the spec's scenario of one copy then two
destructions, evaluated concretely — the deleter runs exactly once and the
counter block is freed. -/
theorem sharedPtr_refcount_exactly_once_wit :
    (rcRun rcInit [RcEvent.copy, RcEvent.rel, RcEvent.rel]).delCalls = 1 ∧
    (rcRun rcInit [RcEvent.copy, RcEvent.rel, RcEvent.rel]).freed = true :=
  ⟨(sharedPtr_refcount_exactly_once [RcEvent.copy, RcEvent.rel, RcEvent.rel]
      (by decide)).1,
   (sharedPtr_refcount_exactly_once [RcEvent.copy, RcEvent.rel, RcEvent.rel]
      (by decide)).2.1⟩

end mtd
